import Mathlib

/-!
Shallow embedding of the asynchronous rating pipeline of the
simple-social-media-app backend: the sentiment worker
(`src/backend/src/worker/sentiment_worker.py`), the rating aggregator it
contains, the image resize worker (`src/backend/worker/resize_worker.py`),
and the comment-creation operation of the API layer
(`src/backend/src/social_media_app/app.py`, `db.py`, `queue.py`).

Python floats are embedded as rationals (`ℚ`), machine rows as Lean
structures over `Nat` / `String` / `Option`, the relational store as lists
of rows, and the external collaborators (the sentiment classifier and the
PIL decode/thumbnail/re-encode pipeline) as function parameters, matching
the spec's black-box treatment of them.
-/

namespace SocialMedia

/-- `Comment` row from `models.py` (class `Comment`): primary key `id`,
foreign key `post_id`, author `user`, `text`, `created_at` timestamp
(embedded as `Nat`), and the nullable sentiment columns
`sentiment : str | None` and `sentiment_score : float | None`. -/
structure Comment where
  id : Nat
  post_id : Nat
  user : String
  text : String
  created_at : Nat
  sentiment : Option String
  sentiment_score : Option ℚ
deriving DecidableEq, Repr

/-- `Post` row from `models.py` (class `Post`): primary key `id`,
`image_path`, `text`, `user`, `created_at`. These are all of the mapped
scalar columns of the model: `models.py` defines NO `rating` column on
`Post` — its docstring says "Ratings now live in a separate ToeRating
table" — which is what decides claim C1 below. -/
structure Post where
  id : Nat
  image_path : String
  text : String
  user : String
  created_at : Nat
deriving DecidableEq, Repr

/-- The relational store restricted to the two tables the pipeline touches:
the persisted `post` and `comment` rows. -/
structure DB where
  posts : List Post
  comments : List Comment
deriving DecidableEq, Repr

/-- Acknowledgement decision a worker callback takes on a delivery:
`basic_ack` or `basic_nack(requeue=False)`. -/
inductive Ack
  | ack
  | nack
deriving DecidableEq, Repr

namespace SentimentWorker

/-- `SENTIMENT_MAP` from `sentiment_worker.py` lines 76-80, as an
association list (the Python dict literal, in source order). -/
def SENTIMENT_MAP : List (String × ℚ) :=
  [("negative", -1), ("neutral", 0), ("positive", 1)]

/-- Python dict indexing `SENTIMENT_MAP[s]` / membership `s in SENTIMENT_MAP`
as an association-list lookup. -/
def sentimentMapLookup (s : String) : Option ℚ :=
  (SENTIMENT_MAP.find? (fun e => e.1 == s)).map (·.2)

/-- The filter condition of the list comprehension at line 93 of
`sentiment_worker.py`: `c.sentiment in SENTIMENT_MAP and c.sentiment_score
is not None`. (`None in SENTIMENT_MAP` is false, since the dict keys are
strings.) -/
def qualifies (c : Comment) : Bool :=
  (match c.sentiment with
   | some s => (sentimentMapLookup s).isSome
   | none => false)
  && c.sentiment_score.isSome

/-- The mapped expression of the same comprehension (line 91):
`SENTIMENT_MAP[c.sentiment] * c.sentiment_score`. Only ever evaluated on
comments passing `qualifies`, where both lookups succeed. -/
def signedValue (c : Comment) : ℚ :=
  match c.sentiment, c.sentiment_score with
  | some s, some v => (sentimentMapLookup s).getD 0 * v
  | _, _ => 0

/-- The rating value computed inline in `recompute_post_rating`
(`sentiment_worker.py` lines 87-101), as a function of the post's comment
list: `0.0` when the post has no comments, else the comprehension filters
and maps the comments, `0.0` again when no comment qualifies, else the
signed values are averaged, rescaled by `((avg + 1) / 2) * 4 + 1` and
clamped with `max(1.0, min(5.0, rating))`. -/
def recompute_rating_value (comments : List Comment) : ℚ :=
  if comments.isEmpty then 0
  else
    let values := (comments.filter qualifies).map signedValue
    if values.isEmpty then 0
    else
      let avg := values.sum / (values.length : ℚ)
      let rating := ((avg + 1) / 2) * 4 + 1
      max 1 (min 5 rating)

/-- Python `round(x, 2)` on the computed rating (line 105), embedded as
rounding to the nearest multiple of `1/100` (tie-breaking differences
between Python's round-half-even and Mathlib's `round` are unobservable
in this development: the written value is never persisted, see C1). -/
def round2 (q : ℚ) : ℚ := (round (q * 100) : ℤ) / 100

/-- A `Post` ORM object held by a worker session. SQLModel table models
accept assignment of attributes that are not mapped columns; `row` holds
the mapped columns, and `rating` holds the unmapped Python instance
attribute written by `post.rating = round(rating, 2)` (line 105), which
`models.py` declares no column for. -/
structure PostObj where
  row : Post
  rating : Option ℚ
deriving DecidableEq, Repr

/-- `session.add(post); session.commit()` (lines 106-107): the flush writes
back the object's mapped columns to its row; the unmapped `rating`
attribute corresponds to no column and is not persisted. -/
def commitPost (db : DB) (orig : Post) (obj : PostObj) : DB :=
  { db with posts := db.posts.map (fun q => if q = orig then obj.row else q) }

/-- `recompute_post_rating(session, post_id)` (`sentiment_worker.py` lines
82-107): load the post's comments, compute the rating (lines 87-101,
factored out as `recompute_rating_value`), then `session.get(Post, post_id)`
and, if the post exists, set `post.rating = round(rating, 2)` and commit. -/
def recompute_post_rating (db : DB) (post_id : Nat) : DB :=
  let comments := db.comments.filter (fun c => c.post_id == post_id)
  let rating := recompute_rating_value comments
  match db.posts.find? (fun p => p.id == post_id) with
  | none => db
  | some p => commitPost db p { row := p, rating := some (round2 rating) }

/-- The field assignments of `update_comment_sentiment` (lines 69-70):
`comment.sentiment = sentiment; comment.sentiment_score = score`. -/
def setSentiment (sentiment : String) (score : ℚ) (c : Comment) : Comment :=
  { c with sentiment := some sentiment, sentiment_score := some score }

/-- The effect of the commit in `update_comment_sentiment` on one stored
row: the row keyed by the selected comment's primary key receives the new
sentiment fields, every other row is untouched. -/
def updateRow (comment_id : Nat) (sentiment : String) (score : ℚ)
    (x : Comment) : Comment :=
  if x.id == comment_id then setSentiment sentiment score x else x

/-- `update_comment_sentiment(session, comment_id=..., sentiment=...,
score=...)` (`sentiment_worker.py` lines 54-74): select the first comment
with the given id; if none, return `None` leaving the store untouched;
otherwise overwrite its sentiment fields, commit, and return its
`post_id`. The commit updates the row keyed by the comment's primary key
(`updateRow`). -/
def update_comment_sentiment (db : DB) (comment_id : Nat)
    (sentiment : String) (score : ℚ) : Option Nat × DB :=
  match db.comments.find? (fun c => c.id == comment_id) with
  | none => (none, db)
  | some c =>
      (some c.post_id,
        { db with comments := db.comments.map (updateRow comment_id sentiment score) })

/-- A sentiment queue message `{"comment_id": <int>, "text": <string>}`.
Python's falsiness checks are mirrored by letting `comment_id = 0` play
the role of a missing/zero id and `text = ""` a missing/empty text. -/
structure SentimentJob where
  comment_id : Nat
  text : String
deriving DecidableEq, Repr

/-- The message-processing body of `callback` (`sentiment_worker.py` lines
113-144) on an already-decoded job, with the classifier
(`analyze_sentiment`) passed as a black-box function `text ↦ (label,
score)`: malformed messages (`if not comment_id or not text`) are
acknowledged and skipped; otherwise the comment is classified and updated,
and when the comment existed the owning post's rating is recomputed; every
such path ends in `basic_ack`. -/
def callback (analyze_sentiment : String → String × ℚ) (db : DB)
    (msg : SentimentJob) : DB × Ack :=
  if msg.comment_id == 0 || msg.text == "" then (db, Ack.ack)
  else
    let r := analyze_sentiment msg.text
    let u := update_comment_sentiment db msg.comment_id r.1 r.2
    match u.1 with
    | none => (u.2, Ack.ack)
    | some post_id => (recompute_post_rating u.2 post_id, Ack.ack)

/-- Reference definition (claim C2), transcribed from the spec's wording in
§4.2: a label is recognized when it is exactly one of the three labels. -/
def referenceRecognized (label : String) : Bool :=
  label == "positive" || label == "neutral" || label == "negative"

/-- Reference definition (claim C2), from the spec's wording: a comment
qualifies when its sentiment is a recognized label and its score is
present. -/
def referenceQualifies (c : Comment) : Bool :=
  (match c.sentiment with
   | some s => referenceRecognized s
   | none => false)
  && c.sentiment_score.isSome

/-- Reference definition (claim C2), from the spec's wording:
`sign(positive) = +1`, `sign(neutral) = 0`, `sign(negative) = -1`. -/
def referenceSign (label : String) : ℚ :=
  if label == "positive" then 1
  else if label == "neutral" then 0
  else -1

/-- Reference definition (claim C2), from the spec's wording: the signed
magnitude `sign(label) * score` of a qualifying comment. -/
def referenceContribution (c : Comment) : ℚ :=
  match c.sentiment, c.sentiment_score with
  | some s, some v => referenceSign s * v
  | _, _ => 0

/-- Reference definition (claim C2), transcribed from the spec's §4.2 steps
2-6: filter to qualifying comments; if the filtered set is empty the
rating is exactly `0.0`; otherwise average the signed magnitudes, rescale
by `((avg + 1) / 2) * 4 + 1` and clamp to `[1.0, 5.0]`. -/
def referenceRating (comments : List Comment) : ℚ :=
  let qs := comments.filter referenceQualifies
  if qs.isEmpty then 0
  else
    let avg := (qs.map referenceContribution).sum / (qs.length : ℚ)
    max 1 (min 5 (((avg + 1) / 2) * 4 + 1))

end SentimentWorker

namespace ResizeWorker

/-!
NOTE on fidelity: `resize_worker.py` as shipped is not valid Python. Line
56 writes `thumb_buffer.seek` applied with curly braces instead of
parentheses (a syntax error), and line 80's `if not image_path:` is
indented one space past its block (an indentation error); `main()` would
additionally hit the undefined name `RABITMQ_USER` at line 102. The module
therefore fails at import and none of its functions can ever run — claims
C4, C8 and C9 are code bugs for this reason. The definitions below embed
the code the file writes down with those two slips repaired, which is the
intent fixed by spec §4.3 and by the repo's own
`worker_tests/test_resize_worker.py` (it imports the module and asserts
the posts/→thumbs/ derivation); the theorems about them evaluate that
intended behaviour at the claims' inputs.
-/

/-- Substring test underlying Python's `old in s` / the scan of
`s.replace(old, new, 1)` over code points (strings embedded as `List
Char`): `pat` occurs in `s` when it is a prefix of some suffix of `s`. -/
def occursIn (pat : List Char) : List Char → Bool
  | [] => pat.isPrefixOf ([] : List Char)
  | c :: t => pat.isPrefixOf (c :: t) || occursIn pat t

/-- Python `s.replace(old, new, 1)`: scan `s` left to right; at the first
position where `old` is a prefix of the remaining suffix, emit `new`,
skip `old.length` characters, and keep the rest unchanged; if no
position matches, the string is returned unchanged. -/
def replace1 (old new : List Char) : List Char → List Char
  | [] => if old.isPrefixOf ([] : List Char) then new else []
  | c :: t =>
      if old.isPrefixOf (c :: t) then new ++ (c :: t).drop old.length
      else c :: replace1 old new t

/-- The thumbnail-key derivation written at `resize_worker.py` line 59:
`thumb_path = image_path.replace("posts/", "thumbs/", 1)`. The line sits
in a module that does not parse (see the note above), so this expression
is never reached by the shipped program; it is embedded as the derivation
the file intends and the repo's test asserts. -/
def thumb_path (image_path : String) : String :=
  String.mk (replace1 "posts/".data "thumbs/".data image_path.data)

/-- The MinIO bucket restricted to what the resize pipeline uses: a
key-to-blob map, blobs abstracted as `Nat` tokens (their bytes are only
moved around, never inspected, by the code under verification). -/
abbrev Store := List (String × Nat)

/-- `client.get_object(MINIO_BUCKET, image_path)` followed by `read()`:
the blob stored under the key, or a raised error (`none`) when the key
resolves to no object. -/
def get_object (store : Store) (key : String) : Option Nat :=
  (store.find? (fun e => e.1 == key)).map (·.2)

/-- `client.put_object(bucket_name=..., object_name=key, data=...)`:
store the blob under the key, overwriting any object already there. -/
def put_object (store : Store) (key : String) (bytes : Nat) : Store :=
  if store.any (fun e => e.1 == key) then
    store.map (fun e => if e.1 == key then (key, bytes) else e)
  else store ++ [(key, bytes)]

/-- `resize_image(image_path)` (`resize_worker.py` lines 34-73), with the
PIL decode → `thumbnail(THUMBNAIL_SIZE, LANCZOS)` → re-encode pipeline
passed as the black-box blob transformation `thumbnailOf`: a failed fetch
is caught, logged and turned into a `None` result with the store
untouched; otherwise the thumbnail bytes are uploaded under
`image_path.replace("posts/", "thumbs/", 1)` and that key is returned.
The shipped function can never run — its line 56 is the module's syntax
error (see the note above); the definition embeds the written logic with
that slip repaired. -/
def resize_image (thumbnailOf : Nat → Nat) (store : Store)
    (image_path : String) : Option String × Store :=
  match get_object store image_path with
  | none => (none, store)
  | some image_data =>
      let thumb_bytes := thumbnailOf image_data
      let tp := thumb_path image_path
      (some tp, put_object store tp thumb_bytes)

/-- A resize queue message `{"image_path": <string>}`; `""` plays the role
of a missing/empty path for the Python falsiness check. -/
structure ResizeJob where
  image_path : String
deriving DecidableEq, Repr

/-- The message-processing body of the resize `callback` (`resize_worker.py`
lines 75-96) on an already-decoded job: a missing `image_path` is
acknowledged and dropped; otherwise `resize_image` runs and the message is
acknowledged whether or not a thumbnail was produced. The shipped callback
never executes — line 80 inside it is mis-indented by one space (see the
note above); the definition embeds the written logic with that slip
repaired. -/
def resize_callback (thumbnailOf : Nat → Nat) (store : Store)
    (msg : ResizeJob) : Store × Ack :=
  if msg.image_path == "" then (store, Ack.ack)
  else
    let r := resize_image thumbnailOf store msg.image_path
    (r.2, Ack.ack)

end ResizeWorker

namespace AppApi

/-- State visible to the comment-creation endpoint: the relational store
plus the list of messages so far published to the sentiment queue
(`QueueService.publish` appends a persistent message to the named queue,
`queue.py` lines 52-65). -/
structure AppState where
  db : DB
  sentiment_queue : List SentimentWorker.SentimentJob
deriving DecidableEq, Repr

/-- `QueueService.publish(queue_name, message)` for the sentiment queue:
the broker appends the message. Defined for fidelity to `queue.py`; the
point of claim C3 is that `add_comment` never calls it. -/
def publish (queue : List SentimentWorker.SentimentJob)
    (m : SentimentWorker.SentimentJob) : List SentimentWorker.SentimentJob :=
  queue ++ [m]

/-- Autoincrement of the `comment` primary key on insert. -/
def nextCommentId (comments : List Comment) : Nat :=
  comments.foldr (fun c m => max c.id m) 0 + 1

/-- `add_comment_db(session, post_id=..., user=..., text=...)` (`db.py`
lines 282-293): insert a comment row with fresh id, `created_at = utcnow()`
(passed in as `now`), sentiment fields unset; commit; refresh and return
the row. -/
def add_comment_db (db : DB) (now : Nat) (post_id : Nat)
    (user text : String) : DB × Comment :=
  let c : Comment :=
    { id := nextCommentId db.comments, post_id := post_id, user := user,
      text := text, created_at := now, sentiment := none,
      sentiment_score := none }
  ({ db with comments := db.comments ++ [c] }, c)

/-- The `add_comment` route handler (`app.py` lines 236-251): look up the
post (`get_post_db`); 404 when absent; otherwise persist the comment via
`add_comment_db` and return its DTO. The handler contains no further
statement — in particular no `QueueService.publish` call. -/
def add_comment (st : AppState) (now : Nat) (post_id : Nat)
    (user text : String) : Except Nat (AppState × Comment) :=
  match st.db.posts.find? (fun p => p.id == post_id) with
  | none => Except.error 404
  | some _ =>
      let r := add_comment_db st.db now post_id user text
      Except.ok ({ st with db := r.1 }, r.2)

end AppApi

/-! Concrete rows and states used to instantiate the theorems below. -/

/-- A concrete post row (id 1). -/
def examplePost : Post :=
  { id := 1, image_path := "posts/abc.jpg", text := "p", user := "alice",
    created_at := 0 }

/-- A concrete not-yet-classified comment (id 1) on post 1. -/
def exampleComment : Comment :=
  { id := 1, post_id := 1, user := "bob", text := "Nice!", created_at := 0,
    sentiment := none, sentiment_score := none }

/-- A concrete comment classified positive with confidence 1. -/
def positiveComment : Comment :=
  { exampleComment with sentiment := some "positive", sentiment_score := some 1 }

/-- A concrete comment classified negative with confidence 1 (id 2). -/
def negativeComment : Comment :=
  { exampleComment with
      id := 2
      text := "Bad post"
      sentiment := some "negative"
      sentiment_score := some 1 }

/-- A concrete comment (id 3) carrying the unrecognized label "POSITIVE"
with a present score. -/
def upperCaseComment : Comment :=
  { exampleComment with
      id := 3
      sentiment := some "POSITIVE"
      sentiment_score := some (9/10) }

/-- A concrete database: post 1 with the unclassified comment 1. -/
def exampleDB : DB := { posts := [examplePost], comments := [exampleComment] }

/-- A deterministic stand-in for the black-box classifier. -/
def examplePositiveClassifier : String → String × ℚ := fun _ => ("positive", 1)

/-- A concrete store holding one object outside the `posts/` convention. -/
def exampleStore : ResizeWorker.Store := [("abc.jpg", 5)]

/-- A concrete app state: post 1 exists, no comment yet, empty queue. -/
def exampleAppState : AppApi.AppState :=
  { db := { posts := [examplePost], comments := [] }, sentiment_queue := [] }

/-- The comment row `add_comment` inserts into `exampleAppState`. -/
def exampleNewComment : Comment :=
  { id := 1, post_id := 1, user := "bob", text := "Nice!", created_at := 7,
    sentiment := none, sentiment_score := none }

/-- The app state after `add_comment` on `exampleAppState`. -/
def exampleAppStateAfter : AppApi.AppState :=
  { db := { posts := [examplePost], comments := [exampleNewComment] },
    sentiment_queue := [] }

/-! Helper lemmas about the aggregator. -/

namespace SentimentWorker

theorem lookup_isSome_eq_recognized (s : String) :
    (sentimentMapLookup s).isSome = referenceRecognized s := by
  by_cases h1 : s = "negative"
  · subst h1; rfl
  by_cases h2 : s = "neutral"
  · subst h2; rfl
  by_cases h3 : s = "positive"
  · subst h3; rfl
  have e1 : ("negative" == s) = false := beq_eq_false_iff_ne.2 (Ne.symm h1)
  have e2 : ("neutral" == s) = false := beq_eq_false_iff_ne.2 (Ne.symm h2)
  have e3 : ("positive" == s) = false := beq_eq_false_iff_ne.2 (Ne.symm h3)
  have f1 : (s == "negative") = false := beq_eq_false_iff_ne.2 h1
  have f2 : (s == "neutral") = false := beq_eq_false_iff_ne.2 h2
  have f3 : (s == "positive") = false := beq_eq_false_iff_ne.2 h3
  simp [sentimentMapLookup, SENTIMENT_MAP, List.find?_cons, referenceRecognized,
    e1, e2, e3, f1, f2, f3]

theorem qualifies_eq_reference (c : Comment) :
    qualifies c = referenceQualifies c := by
  unfold qualifies referenceQualifies
  cases c.sentiment with
  | none => rfl
  | some s =>
      show ((sentimentMapLookup s).isSome && c.sentiment_score.isSome)
        = (referenceRecognized s && c.sentiment_score.isSome)
      rw [lookup_isSome_eq_recognized]

theorem lookup_eq_sign (s : String) (h : referenceRecognized s = true) :
    sentimentMapLookup s = some (referenceSign s) := by
  by_cases h1 : s = "negative"
  · subst h1; rfl
  by_cases h2 : s = "neutral"
  · subst h2; rfl
  by_cases h3 : s = "positive"
  · subst h3; rfl
  have f1 : (s == "negative") = false := beq_eq_false_iff_ne.2 h1
  have f2 : (s == "neutral") = false := beq_eq_false_iff_ne.2 h2
  have f3 : (s == "positive") = false := beq_eq_false_iff_ne.2 h3
  simp [referenceRecognized, f1, f2, f3] at h

theorem signedValue_eq_contribution (c : Comment) (h : qualifies c = true) :
    signedValue c = referenceContribution c := by
  rw [qualifies_eq_reference] at h
  unfold referenceQualifies at h
  unfold signedValue referenceContribution
  cases hs : c.sentiment with
  | none => simp [hs] at h
  | some s =>
      cases hv : c.sentiment_score with
      | none => simp [hs, hv] at h
      | some v =>
          rw [hs] at h
          simp only [Bool.and_eq_true] at h
          show (sentimentMapLookup s).getD 0 * v = referenceSign s * v
          rw [lookup_eq_sign s h.1, Option.getD_some]

end SentimentWorker

/-! Claim theorems. -/

/-- C2: for every post, the rating aggregator of `recompute_post_rating`
(lines 82-101 of `sentiment_worker.py`, embedded as
`recompute_rating_value`) equals the reference definition transcribed from
the spec (`referenceRating`): 0.0 exactly when no comment has a recognized
label together with a non-null score, else the average of `sign(label) *
score` over the qualifying comments, rescaled by `((avg + 1) / 2) * 4 + 1`
and clamped to `[1.0, 5.0]`. -/
theorem c2_aggregator_matches_reference (l : List Comment) :
    SentimentWorker.recompute_rating_value l = SentimentWorker.referenceRating l := by
  open SentimentWorker in
  unfold SentimentWorker.recompute_rating_value SentimentWorker.referenceRating
  have hfil : l.filter qualifies = l.filter referenceQualifies :=
    List.filter_congr (fun c _ => qualifies_eq_reference c)
  have hmap : (l.filter referenceQualifies).map signedValue
      = (l.filter referenceQualifies).map referenceContribution := by
    refine List.map_congr_left (fun c hc => ?_)
    have hq : referenceQualifies c = true := (List.mem_filter.mp hc).2
    exact signedValue_eq_contribution c (by rw [qualifies_eq_reference]; exact hq)
  by_cases hl : l.isEmpty
  · have : l = [] := List.isEmpty_iff.mp hl
    subst this
    simp
  · simp only [hl, Bool.false_eq_true, if_false, hfil, hmap]
    by_cases hq : (l.filter referenceQualifies).isEmpty
    · have : l.filter referenceQualifies = [] := List.isEmpty_iff.mp hq
      simp [this]
    · have hne : ((l.filter referenceQualifies).map referenceContribution).isEmpty = false := by
        cases hmem : l.filter referenceQualifies with
        | nil => rw [hmem] at hq; simp at hq
        | cons a t => simp [hmem]
      simp [hne, hq, List.length_map]

/-- C2 witness (instantiating the universally quantified comment list at a
concrete value). -/
theorem c2_aggregator_matches_reference_witness :
    SentimentWorker.recompute_rating_value [positiveComment, negativeComment]
      = SentimentWorker.referenceRating [positiveComment, negativeComment] :=
  c2_aggregator_matches_reference [positiveComment, negativeComment]

theorem perm_isEmpty_eq {α : Type} {l₁ l₂ : List α} (h : l₁.Perm l₂) :
    l₁.isEmpty = l₂.isEmpty := by
  have hl := h.length_eq
  cases l₁ <;> cases l₂ <;> simp_all

/-- C7: the rating recomputation is order-insensitive: permuting the order
of a post's comments (the order they were created or classified in) does
not change the value `recompute_rating_value` computes. -/
theorem c7_rating_order_insensitive (l₁ l₂ : List Comment) (h : l₁.Perm l₂) :
    SentimentWorker.recompute_rating_value l₁
      = SentimentWorker.recompute_rating_value l₂ := by
  open SentimentWorker in
  have hfil := h.filter qualifies
  have hmap := hfil.map signedValue
  have hempty : l₁.isEmpty = l₂.isEmpty := perm_isEmpty_eq h
  have hvempty : ((l₁.filter qualifies).map signedValue).isEmpty
      = ((l₂.filter qualifies).map signedValue).isEmpty := perm_isEmpty_eq hmap
  simp only [SentimentWorker.recompute_rating_value]
  rw [hempty, hvempty, hmap.sum_eq, hmap.length_eq]

/-- C7 witness: swapping two concrete classified comments leaves the
computed rating unchanged. -/
theorem c7_rating_order_insensitive_witness :
    SentimentWorker.recompute_rating_value [positiveComment, negativeComment]
      = SentimentWorker.recompute_rating_value [negativeComment, positiveComment] :=
  c7_rating_order_insensitive _ _ (List.Perm.swap negativeComment positiveComment [])

/-- C10: label matching in the aggregator is case-sensitive and exact: a
comment whose sentiment is any string other than exactly "positive",
"neutral" or "negative" (for example "POSITIVE") fails the filter even
when its `sentiment_score` is set, and contributes nothing to the rating
of its post. -/
theorem c10_label_match_case_sensitive (c : Comment) (l : List Comment) (s : String)
    (hs : c.sentiment = some s) (h1 : s ≠ "positive") (h2 : s ≠ "neutral")
    (h3 : s ≠ "negative") (_hv : c.sentiment_score.isSome = true) :
    SentimentWorker.qualifies c = false ∧
      SentimentWorker.recompute_rating_value (c :: l)
        = SentimentWorker.recompute_rating_value l := by
  open SentimentWorker in
  have hq : qualifies c = false := by
    rw [SentimentWorker.qualifies_eq_reference]
    unfold SentimentWorker.referenceQualifies
    rw [hs]
    have f1 : (s == "positive") = false := beq_eq_false_iff_ne.2 h1
    have f2 : (s == "neutral") = false := beq_eq_false_iff_ne.2 h2
    have f3 : (s == "negative") = false := beq_eq_false_iff_ne.2 h3
    simp [SentimentWorker.referenceRecognized, f1, f2, f3]
  refine ⟨hq, ?_⟩
  have hfil : (c :: l).filter SentimentWorker.qualifies
      = l.filter SentimentWorker.qualifies := by
    rw [List.filter_cons, hq]
    simp
  simp only [SentimentWorker.recompute_rating_value]
  by_cases hl : l.isEmpty
  · have : l = [] := List.isEmpty_iff.mp hl
    subst this
    rw [hfil]
    simp
  · have hcl : (c :: l).isEmpty = false := rfl
    rw [hcl, hfil]
    simp only [hl, Bool.false_eq_true, if_false]

/-- C10 witness: the comment labelled "POSITIVE" with score 9/10 is
excluded and does not change the rating of a post that also has a
recognized positive comment. -/
theorem c10_label_match_case_sensitive_witness :
    SentimentWorker.qualifies upperCaseComment = false ∧
      SentimentWorker.recompute_rating_value [upperCaseComment, positiveComment]
        = SentimentWorker.recompute_rating_value [positiveComment] :=
  c10_label_match_case_sensitive upperCaseComment [positiveComment] "POSITIVE"
    rfl (by decide) (by decide) (by decide) rfl

/-! Helper lemmas about `update_comment_sentiment` and
`recompute_post_rating`. -/

namespace SentimentWorker

theorem updateRow_id (cid : Nat) (s : String) (v : ℚ) (x : Comment) :
    (updateRow cid s v x).id = x.id := by
  unfold updateRow
  split <;> rfl

theorem updateRow_post_id (cid : Nat) (s : String) (v : ℚ) (x : Comment) :
    (updateRow cid s v x).post_id = x.post_id := by
  unfold updateRow
  split <;> rfl

theorem updateRow_idem (cid : Nat) (s : String) (v : ℚ) (x : Comment) :
    updateRow cid s v (updateRow cid s v x) = updateRow cid s v x := by
  by_cases h : (x.id == cid) = true
  · simp [updateRow, h, setSentiment]
  · simp [updateRow, h]

theorem map_updateRow_idem (cid : Nat) (s : String) (v : ℚ) (l : List Comment) :
    (l.map (updateRow cid s v)).map (updateRow cid s v)
      = l.map (updateRow cid s v) := by
  rw [List.map_map]
  exact List.map_congr_left (fun x _ => updateRow_idem cid s v x)

theorem find?_map_updateRow (cid : Nat) (s : String) (v : ℚ) (l : List Comment) :
    (l.map (updateRow cid s v)).find? (fun c => c.id == cid)
      = (l.find? (fun c => c.id == cid)).map (updateRow cid s v) := by
  rw [List.find?_map]
  have hcomp : ((fun c : Comment => c.id == cid) ∘ updateRow cid s v)
      = fun c : Comment => c.id == cid := by
    funext x
    simp [Function.comp, updateRow_id]
  rw [hcomp]

theorem update_comment_sentiment_posts (db : DB) (cid : Nat) (s : String) (v : ℚ) :
    (update_comment_sentiment db cid s v).2.posts = db.posts := by
  unfold update_comment_sentiment
  cases hf : db.comments.find? (fun c => c.id == cid) <;> rfl

theorem update_comment_sentiment_idem (db : DB) (cid : Nat) (s : String) (v : ℚ) :
    update_comment_sentiment (update_comment_sentiment db cid s v).2 cid s v
      = update_comment_sentiment db cid s v := by
  cases hf : db.comments.find? (fun c => c.id == cid) with
  | none =>
      have h1 : update_comment_sentiment db cid s v = (none, db) := by
        unfold update_comment_sentiment
        rw [hf]
      rw [h1]
      exact h1
  | some c =>
      have h1 : update_comment_sentiment db cid s v
          = (some c.post_id,
              { db with comments := db.comments.map (updateRow cid s v) }) := by
        unfold update_comment_sentiment
        rw [hf]
      rw [h1]
      show update_comment_sentiment
        { db with comments := db.comments.map (updateRow cid s v) } cid s v = _
      unfold update_comment_sentiment
      rw [show ({ db with comments := db.comments.map (updateRow cid s v) } : DB).comments
          = db.comments.map (updateRow cid s v) from rfl]
      rw [find?_map_updateRow, hf]
      simp only [Option.map_some']
      rw [map_updateRow_idem, updateRow_post_id]

theorem recompute_post_rating_eq (db : DB) (pid : Nat) :
    recompute_post_rating db pid = db := by
  simp only [recompute_post_rating]
  cases hf : db.posts.find? (fun p => p.id == pid) with
  | none => rfl
  | some p =>
      have hid : ∀ q ∈ db.posts, (if q = p then p else q) = q := by
        intro q _
        split
        · rename_i h
          exact h.symm
        · rfl
      have hmap : db.posts.map (fun q => if q = p then p else q) = db.posts := by
        calc db.posts.map (fun q => if q = p then p else q)
            = db.posts.map id := List.map_congr_left (fun q hq => hid q hq)
          _ = db.posts := List.map_id _
      show ({ db with posts := db.posts.map (fun q => if q = p then p else q) } : DB) = db
      rw [hmap]

/-- Characterization of the callback body: malformed messages leave the
store untouched; otherwise the final store is the one produced by
`update_comment_sentiment` (the rating recomputation persists nothing,
`recompute_post_rating_eq`); every path acknowledges. -/
theorem callback_char (f : String → String × ℚ) (db : DB) (msg : SentimentJob) :
    callback f db msg
      = if (msg.comment_id == 0 || msg.text == "") = true then (db, Ack.ack)
        else ((update_comment_sentiment db msg.comment_id (f msg.text).1 (f msg.text).2).2,
               Ack.ack) := by
  by_cases hguard : (msg.comment_id == 0 || msg.text == "") = true
  · simp [callback, hguard]
  · simp only [callback, hguard, Bool.false_eq_true, if_false]
    cases hf : db.comments.find? (fun c => c.id == msg.comment_id) with
    | none =>
        have hu : update_comment_sentiment db msg.comment_id (f msg.text).1 (f msg.text).2
            = (none, db) := by
          unfold update_comment_sentiment
          rw [hf]
        rw [hu]
    | some c =>
        have hu : update_comment_sentiment db msg.comment_id (f msg.text).1 (f msg.text).2
            = (some c.post_id,
                { db with
                    comments := db.comments.map
                      (updateRow msg.comment_id (f msg.text).1 (f msg.text).2) }) := by
          unfold update_comment_sentiment
          rw [hf]
        rw [hu]
        simp only [recompute_post_rating_eq]

end SentimentWorker

/-- C6: processing a sentiment job is idempotent: delivering the identical
job (same `comment_id`, same `text`, hence the same classifier output) a
second time reproduces exactly the state after the first delivery — the
comment's sentiment fields are overwritten with the same values, no row is
duplicated, and the acknowledgement decision is the same. -/
theorem c6_sentiment_job_idempotent (f : String → String × ℚ) (db : DB)
    (msg : SentimentWorker.SentimentJob) :
    SentimentWorker.callback f (SentimentWorker.callback f db msg).1 msg
      = SentimentWorker.callback f db msg := by
  open SentimentWorker in
  by_cases hguard : (msg.comment_id == 0 || msg.text == "") = true
  · simp [SentimentWorker.callback_char, hguard]
  · simp only [SentimentWorker.callback_char, hguard, Bool.false_eq_true, if_false]
    rw [SentimentWorker.update_comment_sentiment_idem]

/-- C5: a sentiment job whose `comment_id` references no existing comment
is acknowledged, raises no exception, and leaves the database unchanged:
no comment or post row is created or modified. -/
theorem c5_missing_comment_job_acked_db_unchanged (f : String → String × ℚ)
    (db : DB) (msg : SentimentWorker.SentimentJob)
    (h : ∀ c ∈ db.comments, c.id ≠ msg.comment_id) :
    SentimentWorker.callback f db msg = (db, Ack.ack) := by
  open SentimentWorker in
  rw [SentimentWorker.callback_char]
  by_cases hguard : (msg.comment_id == 0 || msg.text == "") = true
  · simp [hguard]
  · simp only [hguard, Bool.false_eq_true, if_false]
    have hf : db.comments.find? (fun c => c.id == msg.comment_id) = none :=
      List.find?_eq_none.2 (fun c hc => by simpa using h c hc)
    have hu : SentimentWorker.update_comment_sentiment db msg.comment_id
        (f msg.text).1 (f msg.text).2 = (none, db) := by
      unfold SentimentWorker.update_comment_sentiment
      rw [hf]
    rw [hu]

/-- C5 witness: a job for comment id 2 against a database whose only
comment has id 1. -/
theorem c5_missing_comment_job_acked_db_unchanged_witness :
    SentimentWorker.callback examplePositiveClassifier exampleDB ⟨2, "hi"⟩
      = (exampleDB, Ack.ack) :=
  c5_missing_comment_job_acked_db_unchanged examplePositiveClassifier exampleDB
    ⟨2, "hi"⟩ (by decide)

/-- C1: the claim fails on the code: `models.py` declares no `rating`
column on `Post` (its docstring states that ratings moved to the separate
`ToeRating` table), so the write `post.rating = round(rating, 2)` in
`recompute_post_rating` sets an attribute no commit can persist. The first
conjunct shows that processing any sentiment job leaves every stored post
row unchanged; the second shows the aggregator nevertheless computes the
nonzero rating 5 for the concrete failing input (comment 1 classified
positive with confidence 1), so a persisted rating would have had to
change the post; the third evaluates the worker on that failing input. -/
theorem c1_rating_write_not_persisted :
    (∀ (f : String → String × ℚ) (db : DB) (msg : SentimentWorker.SentimentJob),
        ((SentimentWorker.callback f db msg).1).posts = db.posts)
      ∧ SentimentWorker.recompute_rating_value
          [SentimentWorker.setSentiment "positive" 1 exampleComment] = 5
      ∧ (SentimentWorker.callback examplePositiveClassifier exampleDB ⟨1, "Nice!"⟩).1
          = { posts := [examplePost],
              comments := [SentimentWorker.setSentiment "positive" 1 exampleComment] } := by
  open SentimentWorker in
  refine ⟨?_, ?_, ?_⟩
  · intro f db msg
    rw [SentimentWorker.callback_char]
    by_cases hguard : (msg.comment_id == 0 || msg.text == "") = true
    · simp [hguard]
    · simp only [hguard, Bool.false_eq_true, if_false]
      exact SentimentWorker.update_comment_sentiment_posts db msg.comment_id
        (f msg.text).1 (f msg.text).2
  · have h : SentimentWorker.recompute_rating_value
        [SentimentWorker.setSentiment "positive" 1 exampleComment]
        = max 1 (min 5 ((((1:ℚ) * 1 + 0) / ((1:ℕ):ℚ) + 1) / 2 * 4 + 1)) := rfl
    rw [h]
    norm_num [min_def, max_def]
  · rfl

/-! Helper lemmas about the resize worker's key handling and store. -/

namespace ResizeWorker

theorem replace1_of_not_occurs (old new : List Char) :
    ∀ s, occursIn old s = false → replace1 old new s = s := by
  intro s
  induction s with
  | nil =>
      intro h
      have h' : old.isPrefixOf ([] : List Char) = false := h
      simp [replace1, h']
  | cons c t ih =>
      intro h
      have h' : (old.isPrefixOf (c :: t) || occursIn old t) = false := h
      rw [Bool.or_eq_false_iff] at h'
      simp [replace1, h'.1, ih h'.2]

theorem replace1_append (old new : List Char) (hold : old ≠ []) :
    ∀ (a b : List Char),
      (∀ i, i < a.length → ¬ (old <+: (a ++ old ++ b).drop i)) →
      replace1 old new (a ++ old ++ b) = a ++ new ++ b := by
  intro a
  induction a with
  | nil =>
      intro b _
      cases old with
      | nil => exact absurd rfl hold
      | cons d t =>
          have hpre : (d :: t).isPrefixOf (d :: (t ++ b)) = true := by
            rw [List.isPrefixOf_iff_prefix]
            exact List.prefix_append (d :: t) b
          simp [replace1, hpre, List.drop_succ_cons, List.drop_left]
  | cons c a' ih =>
      intro b h
      cases hold' : old with
      | nil => exact absurd hold' hold
      | cons d t =>
          rw [← hold']
          have h0 : ¬ (old <+: ((c :: a') ++ old ++ b)) := by
            have := h 0 (Nat.succ_pos a'.length)
            simpa using this
          have hpre : old.isPrefixOf (c :: ((a' ++ old) ++ b)) = false := by
            rw [← Bool.not_eq_true, List.isPrefixOf_iff_prefix]
            simpa using h0
          have h' : ∀ i, i < a'.length → ¬ (old <+: (a' ++ old ++ b).drop i) := by
            intro i hi
            have := h (i + 1) (Nat.succ_lt_succ hi)
            simpa [List.drop_succ_cons] using this
          calc replace1 old new ((c :: a') ++ old ++ b)
              = replace1 old new (c :: ((a' ++ old) ++ b)) := by
                simp [List.cons_append]
            _ = c :: replace1 old new ((a' ++ old) ++ b) := by
                rw [hold']
                rw [hold'] at hpre
                simp only [replace1, hpre, Bool.false_eq_true, if_false]
            _ = c :: (a' ++ new ++ b) := by rw [ih b h']
            _ = (c :: a') ++ new ++ b := by simp [List.cons_append]

theorem find?_map_put (k : String) (bts : Nat) : ∀ (l : Store),
    (l.map (fun e => if e.1 == k then (k, bts) else e)).find? (fun e => e.1 == k)
      = (l.find? (fun e => e.1 == k)).map (fun _ => (k, bts)) := by
  intro l
  induction l with
  | nil => rfl
  | cons e s ih =>
      by_cases he : e.1 = k
      · subst he
        simp [List.find?_cons, ih]
      · have he' : (e.1 == k) = false := beq_eq_false_iff_ne.2 he
        rw [List.map_cons, List.find?_cons, List.find?_cons]
        simp only [he', ih]
        simp only [Bool.false_eq_true, if_false]
        rw [he']

theorem get_object_put_object (store : Store) (k : String) (bts : Nat) :
    get_object (put_object store k bts) k = some bts := by
  unfold put_object
  by_cases hany : store.any (fun e => e.1 == k) = true
  · simp only [hany, if_true]
    unfold get_object
    rw [find?_map_put]
    have hsome : (store.find? (fun e => e.1 == k)).isSome = true := by
      rw [List.find?_isSome]
      simpa using hany
    cases hf : store.find? (fun e => e.1 == k) with
    | none => rw [hf] at hsome; simp at hsome
    | some e => rfl
  · have hany' : store.any (fun e => e.1 == k) = false := by
      rw [← Bool.not_eq_true]
      exact hany
    simp only [hany', Bool.false_eq_true, if_false]
    unfold get_object
    have hnone : store.find? (fun e => e.1 == k) = none := by
      rw [List.find?_eq_none]
      intro x hx hpx
      have hx' : store.any (fun e => e.1 == k) = true := List.any_eq_true.2 ⟨x, hx, hpx⟩
      exact hany hx'
    rw [List.find?_append, hnone]
    simp

end ResizeWorker

/-- C4: the claim fails on the code as shipped: `resize_worker.py` does
not parse (syntax error at line 56, indentation error at line 80), so the
worker crashes at import and never derives any thumbnail key at all. The
derivation the file writes down at line 59 — embedded as `thumb_path`,
and exactly what the spec and the repo's own `test_resize_worker.py`
assert — does satisfy the claim, which this theorem evaluates: whenever
the key splits as `a ++ "posts/" ++ b` with no occurrence of the marker
starting before position `|a|`, the derived key is
`a ++ "thumbs/" ++ b`. -/
theorem c4_thumb_key_substitutes_first_marker (a b : List Char)
    (h : ∀ i, i < a.length → ¬ ("posts/".data <+: (a ++ "posts/".data ++ b).drop i)) :
    ResizeWorker.thumb_path (String.mk (a ++ "posts/".data ++ b))
      = String.mk (a ++ "thumbs/".data ++ b) := by
  unfold ResizeWorker.thumb_path
  exact congrArg String.mk
    (ResizeWorker.replace1_append "posts/".data "thumbs/".data (by decide) a b h)

/-- C4 witness: the claim's concrete instance — for input key
"posts/abc.jpg" the derived key is exactly "thumbs/abc.jpg". -/
theorem c4_thumb_key_substitutes_first_marker_witness :
    ResizeWorker.thumb_path "posts/abc.jpg" = "thumbs/abc.jpg" := by
  have h := c4_thumb_key_substitutes_first_marker [] "abc.jpg".data
    (fun i hi => absurd hi (Nat.not_lt_zero i))
  simpa using h

/-- C8: the claim fails on the code as shipped: the unparseable
`resize_worker.py` (syntax error at line 56, indentation error inside the
callback at line 80, and an undefined name RABITMQ_USER at line 102)
crashes at startup, so the shipped worker never acknowledges anything and
in particular does not survive a missing object — "does not crash the
worker loop" is false of it. This theorem evaluates the callback logic the
file writes down (slips repaired): a job whose `image_path` resolves to no
object yields a null result from `resize_image`, uploads no thumbnail
(the store is unchanged), and is acknowledged without requeue. -/
theorem c8_missing_object_job_acked_no_upload (t : Nat → Nat)
    (store : ResizeWorker.Store) (key : String)
    (h : ResizeWorker.get_object store key = none) :
    ResizeWorker.resize_image t store key = (none, store)
      ∧ ResizeWorker.resize_callback t store ⟨key⟩ = (store, Ack.ack) := by
  open ResizeWorker in
  have h1 : ResizeWorker.resize_image t store key = (none, store) := by
    simp only [ResizeWorker.resize_image, h]
  refine ⟨h1, ?_⟩
  by_cases hk : (key == "") = true
  · simp [ResizeWorker.resize_callback, hk]
  · simp [ResizeWorker.resize_callback, hk, h1]

/-- C8 witness: a job for the key "missing.jpg" against a store holding
only "abc.jpg". -/
theorem c8_missing_object_job_acked_no_upload_witness :
    ResizeWorker.resize_image Nat.succ exampleStore "missing.jpg"
        = (none, exampleStore)
      ∧ ResizeWorker.resize_callback Nat.succ exampleStore ⟨"missing.jpg"⟩
        = (exampleStore, Ack.ack) :=
  c8_missing_object_job_acked_no_upload Nat.succ exampleStore "missing.jpg" rfl

/-- C9: the claim fails on the code as shipped: `resize_image` sits in a
module that does not parse, so the shipped worker never uploads or
overwrites anything. This theorem evaluates the written logic (slips
repaired): for an `image_path` that does not contain the substring
"posts/", the derived thumbnail key equals the `image_path` itself, so
the worker uploads the re-encoded thumbnail under the original object's
own key, overwriting the original blob in the store. -/
theorem c9_no_marker_key_overwrites_original (t : Nat → Nat)
    (store : ResizeWorker.Store) (key : String) (b : Nat)
    (h1 : ResizeWorker.occursIn "posts/".data key.data = false)
    (h2 : ResizeWorker.get_object store key = some b) :
    ResizeWorker.thumb_path key = key
      ∧ ResizeWorker.resize_image t store key
          = (some key, ResizeWorker.put_object store key (t b))
      ∧ ResizeWorker.get_object (ResizeWorker.resize_image t store key).2 key
          = some (t b) := by
  open ResizeWorker in
  have htp : ResizeWorker.thumb_path key = key := by
    unfold ResizeWorker.thumb_path
    rw [ResizeWorker.replace1_of_not_occurs "posts/".data "thumbs/".data key.data h1]
  have himg : ResizeWorker.resize_image t store key
      = (some key, ResizeWorker.put_object store key (t b)) := by
    simp only [ResizeWorker.resize_image, h2, htp]
  refine ⟨htp, himg, ?_⟩
  rw [himg]
  exact ResizeWorker.get_object_put_object store key (t b)

/-- C9 witness: the key "abc.jpg" (no "posts/" marker) stored with blob 5
is overwritten in place by the thumbnail blob. -/
theorem c9_no_marker_key_overwrites_original_witness :
    ResizeWorker.thumb_path "abc.jpg" = "abc.jpg"
      ∧ ResizeWorker.resize_image Nat.succ exampleStore "abc.jpg"
          = (some "abc.jpg", ResizeWorker.put_object exampleStore "abc.jpg" (Nat.succ 5))
      ∧ ResizeWorker.get_object
          (ResizeWorker.resize_image Nat.succ exampleStore "abc.jpg").2 "abc.jpg"
          = some (Nat.succ 5) :=
  c9_no_marker_key_overwrites_original Nat.succ exampleStore "abc.jpg" 5
    (by decide) rfl

/-- C3: the claim fails on the code: the `add_comment` route handler
persists the comment via `add_comment_db` and returns its DTO, but
contains no call to `QueueService.publish` (nor does any other statement
on its path), so no sentiment job for the new comment's id and text is
ever published — the sentiment queue is left exactly as it was. The
theorem evaluates the handler: on every successful comment creation the
comment row is appended and the queue is unchanged. -/
theorem c3_add_comment_publishes_no_job (st : AppApi.AppState)
    (now post_id : Nat) (user text : String) (st' : AppApi.AppState) (c : Comment)
    (h : AppApi.add_comment st now post_id user text = Except.ok (st', c)) :
    st'.sentiment_queue = st.sentiment_queue
      ∧ st'.db.comments = st.db.comments ++ [c] := by
  unfold AppApi.add_comment at h
  cases hf : st.db.posts.find? (fun p => p.id == post_id) with
  | none =>
      rw [hf] at h
      exact absurd h (by simp)
  | some p =>
      rw [hf] at h
      simp only [AppApi.add_comment_db, Except.ok.injEq, Prod.mk.injEq] at h
      obtain ⟨hst, hc⟩ := h
      subst hst
      subst hc
      exact ⟨rfl, rfl⟩

/-- C3 witness: creating the concrete comment "Nice!" by "bob" on post 1
appends the comment row and leaves the sentiment queue unchanged. -/
theorem c3_add_comment_publishes_no_job_witness :
    exampleAppStateAfter.sentiment_queue = exampleAppState.sentiment_queue
      ∧ exampleAppStateAfter.db.comments
          = exampleAppState.db.comments ++ [exampleNewComment] :=
  c3_add_comment_publishes_no_job exampleAppState 7 1 "bob" "Nice!"
    exampleAppStateAfter exampleNewComment rfl

end SocialMedia
